import Mathlib

/-!
Shallow embedding of the 2D circle-physics core of the repository
(`src/ballcollisiongemini.py` and `src/ballcollisiongeminiwithui.py`).

Scalars are modelled as rationals (`ℚ`); real Python floats are IEEE
doubles, but every algebraic and branching property below is about the
exact arithmetic the code writes down, so ℚ is the faithful executable
model.  The single genuinely irrational operation, `math.sqrt(dist_sq)`,
is modelled by passing the distance `dist` as an explicit argument;
theorems that need it carry the defining hypotheses `0 < dist` and
`dist * dist = dist_sq`.
-/

/-- A 2D vector, modelling `pygame.math.Vector2`. -/
structure Vec2 where
  x : ℚ
  y : ℚ
deriving DecidableEq, Repr

namespace Vec2

@[ext] theorem ext2 {a b : Vec2} (hx : a.x = b.x) (hy : a.y = b.y) : a = b := by
  cases a; cases b; simp_all

/-- Componentwise addition (`Vector2.__add__`). -/
def add (a b : Vec2) : Vec2 := ⟨a.x + b.x, a.y + b.y⟩

/-- Componentwise subtraction (`Vector2.__sub__`). -/
def sub (a b : Vec2) : Vec2 := ⟨a.x - b.x, a.y - b.y⟩

/-- Scalar multiplication `v * c` (`Vector2.__mul__`). -/
def smul (a : Vec2) (c : ℚ) : Vec2 := ⟨a.x * c, a.y * c⟩

/-- Dot product (`Vector2.dot`). -/
def dot (a b : Vec2) : ℚ := a.x * b.x + a.y * b.y

/-- Squared length (`Vector2.length_squared`). -/
def lengthSq (a : Vec2) : ℚ := a.x * a.x + a.y * a.y

/-- The zero vector, `vector2(0, 0)`. -/
def zero : Vec2 := ⟨0, 0⟩

@[simp] theorem add_x (a b : Vec2) : (a.add b).x = a.x + b.x := rfl
@[simp] theorem add_y (a b : Vec2) : (a.add b).y = a.y + b.y := rfl
@[simp] theorem sub_x (a b : Vec2) : (a.sub b).x = a.x - b.x := rfl
@[simp] theorem sub_y (a b : Vec2) : (a.sub b).y = a.y - b.y := rfl
@[simp] theorem smul_x (a : Vec2) (c : ℚ) : (a.smul c).x = a.x * c := rfl
@[simp] theorem smul_y (a : Vec2) (c : ℚ) : (a.smul c).y = a.y * c := rfl

theorem dot_def (a b : Vec2) : a.dot b = a.x * b.x + a.y * b.y := rfl

end Vec2

/-- The mutable `Ball` record (both source files declare the same fields).
`color` is an opaque presentation attribute and is omitted: no physics
path reads it. -/
structure Ball where
  position : Vec2
  velocity : Vec2
  acceleration : Vec2
  radius : ℚ
  mass : ℚ
  inv_mass : ℚ
deriving DecidableEq, Repr

namespace Ball

/-- Constructor `Ball.__init__` of `src/ballcollisiongemini.py` restricted to numeric
arguments (the `isinstance` checks cannot fire on ℚ inputs): rejects
`radius <= 0` and `mass <= 0`, then caches `inv_mass`. -/
def mkGemini (x y radius mass vx vy ax ay : ℚ) : Except String Ball :=
  if radius ≤ 0 then Except.error "radius must be a positive number"
  else if mass ≤ 0 then Except.error "mass must be a positive number"
  else Except.ok
    { position := ⟨x, y⟩
      velocity := ⟨vx, vy⟩
      acceleration := ⟨ax, ay⟩
      radius := radius
      mass := mass
      inv_mass := if 0 < mass then 1 / mass else 0 }

/-- Constructor `Ball.__init__` of `src/ballcollisiongeminiwithui.py` restricted to
numeric arguments: rejects `radius <= 0` and `mass < 0` (zero mass is
allowed there, giving an immovable body with `inv_mass = 0`). -/
def mkUI (x y radius mass vx vy ax ay : ℚ) : Except String Ball :=
  if radius ≤ 0 then Except.error "radius must be a positive number"
  else if mass < 0 then Except.error "mass must be a non-negative number"
  else Except.ok
    { position := ⟨x, y⟩
      velocity := ⟨vx, vy⟩
      acceleration := ⟨ax, ay⟩
      radius := radius
      mass := mass
      inv_mass := if 0 < mass then 1 / mass else 0 }

/-- Method `Ball.update(dt)` (identical in both files): raises for `dt < 0`,
otherwise `velocity += acceleration * dt; position += velocity * dt`
(semi-implicit Euler: the position update uses the updated velocity). -/
def update (b : Ball) (dt : ℚ) : Except String Ball :=
  if dt < 0 then Except.error "dt cannot be negative"
  else
    let v := b.velocity.add (b.acceleration.smul dt)
    Except.ok { b with velocity := v, position := b.position.add (v.smul dt) }

/-- Method `Ball.apply_force(force)` (identical in both files): no-op unless
`inv_mass > 0`, otherwise `acceleration += force * inv_mass`. -/
def apply_force (b : Ball) (force : Vec2) : Ball :=
  if 0 < b.inv_mass then
    { b with acceleration := b.acceleration.add (force.smul b.inv_mass) }
  else b

end Ball

/-- Wall-collision block of `run_collision_simulation`
(`src/ballcollisiongemini.py` lines 192-204), with the enclosing scope's
constants `WIDTH`, `HEIGHT`, `RESTITUTION` as parameters `W H e`.
Each axis clamps the position and unconditionally multiplies that axis's
velocity by `-e`; the two axes are independent `if/elif` chains. -/
def resolveBoundsGemini (W H e : ℚ) (b : Ball) : Ball :=
  let b1 :=
    if b.position.x - b.radius < 0 then
      { b with position := ⟨b.radius, b.position.y⟩
               velocity := ⟨b.velocity.x * (-e), b.velocity.y⟩ }
    else if W < b.position.x + b.radius then
      { b with position := ⟨W - b.radius, b.position.y⟩
               velocity := ⟨b.velocity.x * (-e), b.velocity.y⟩ }
    else b
  if b1.position.y - b1.radius < 0 then
    { b1 with position := ⟨b1.position.x, b1.radius⟩
              velocity := ⟨b1.velocity.x, b1.velocity.y * (-e)⟩ }
  else if H < b1.position.y + b1.radius then
    { b1 with position := ⟨b1.position.x, H - b1.radius⟩
              velocity := ⟨b1.velocity.x, b1.velocity.y * (-e)⟩ }
  else b1

/-- Wall-collision block of `run_simulation_with_ui`
(`src/ballcollisiongeminiwithui.py` lines 323-342).  The horizontal walls
reflect unconditionally; the top wall clamps to `radius + 1` and reflects
unconditionally; the bottom wall clamps and reflects only when
`velocity.y > 0` (the body is still moving downwards). -/
def resolveBoundsUI (W H e : ℚ) (b : Ball) : Ball :=
  let b1 :=
    if b.position.x - b.radius < 0 then
      { b with position := ⟨b.radius, b.position.y⟩
               velocity := ⟨b.velocity.x * (-e), b.velocity.y⟩ }
    else if W < b.position.x + b.radius then
      { b with position := ⟨W - b.radius, b.position.y⟩
               velocity := ⟨b.velocity.x * (-e), b.velocity.y⟩ }
    else b
  if b1.position.y - b1.radius < 0 then
    { b1 with position := ⟨b1.position.x, b1.radius + 1⟩
              velocity := ⟨b1.velocity.x, b1.velocity.y * (-e)⟩ }
  else if H < b1.position.y + b1.radius then
    let b2 := { b1 with position := ⟨b1.position.x, H - b1.radius⟩ }
    if 0 < b2.velocity.y then
      { b2 with velocity := ⟨b2.velocity.x, b2.velocity.y * (-e)⟩ }
    else b2
  else b1

/-- One iteration of the pairwise loop of `run_collision_simulation`
(`src/ballcollisiongemini.py` lines 208-252) on the pair `(a, b)`:
detection (`1e-6 < dist_sq < min_dist²`), positional separation in
inverse-mass proportion (skipped with `continue` when
`inv_mass` sums to zero), and the impulse response when the pair is
closing (`vel_along_normal < 0`).  `e` is `RESTITUTION`; `dist` stands
for `math.sqrt(dist_sq)` and theorems about the detected branch carry
`0 < dist` and `dist * dist = dist_sq`. -/
def resolvePairGemini (e : ℚ) (a b : Ball) (dist : ℚ) : Ball × Ball :=
  let dist_vec := b.position.sub a.position
  let dist_sq := dist_vec.lengthSq
  let min_dist := a.radius + b.radius
  if dist_sq < min_dist * min_dist ∧ 1 / 1000000 < dist_sq then
    let normal := dist_vec.smul (1 / dist)
    let overlap := min_dist - dist
    let total_inv_mass := a.inv_mass + b.inv_mass
    if total_inv_mass = 0 then (a, b)
    else
      let separation_a := normal.smul (overlap * a.inv_mass / total_inv_mass)
      let separation_b := normal.smul (overlap * b.inv_mass / total_inv_mass)
      let a1 := { a with position := a.position.sub separation_a }
      let b1 := { b with position := b.position.add separation_b }
      let relative_velocity := b1.velocity.sub a1.velocity
      let vel_along_normal := relative_velocity.dot normal
      if vel_along_normal < 0 then
        let impulse_scalar := -(1 + e) * vel_along_normal / total_inv_mass
        let impulse_vec := normal.smul impulse_scalar
        ({ a1 with velocity := a1.velocity.sub (impulse_vec.smul a1.inv_mass) },
         { b1 with velocity := b1.velocity.add (impulse_vec.smul b1.inv_mass) })
      else (a1, b1)
  else (a, b)

/-- The ball-ball collision block of `run_simulation_with_ui`
(`src/ballcollisiongeminiwithui.py` lines 345-386) on the pair `(a, b)`:
detection (`0 < dist_sq < min_dist²`), separation guarded by
`total_inv_mass > 0`, then the impulse response when the pair is closing.
Unlike the other file, `impulse_scalar /= total_inv_mass` is NOT guarded:
with `total_inv_mass = 0` and a closing pair Python raises
`ZeroDivisionError`, modelled as `Except.error`. -/
def resolvePairUI (e : ℚ) (a b : Ball) (dist : ℚ) :
    Except String (Ball × Ball) :=
  let dist_vec := b.position.sub a.position
  let dist_sq := dist_vec.lengthSq
  let min_dist := a.radius + b.radius
  if 0 < dist_sq ∧ dist_sq < min_dist * min_dist then
    let normal := dist_vec.smul (1 / dist)
    let overlap := min_dist - dist
    let total_inv_mass := a.inv_mass + b.inv_mass
    let a1 :=
      if 0 < total_inv_mass then
        { a with position :=
            a.position.sub (normal.smul (overlap * a.inv_mass / total_inv_mass)) }
      else a
    let b1 :=
      if 0 < total_inv_mass then
        { b with position :=
            b.position.add (normal.smul (overlap * b.inv_mass / total_inv_mass)) }
      else b
    let relative_velocity := b1.velocity.sub a1.velocity
    let vel_along_normal := relative_velocity.dot normal
    if vel_along_normal < 0 then
      if total_inv_mass = 0 then Except.error "float division by zero"
      else
        let impulse_scalar := -(1 + e) * vel_along_normal / total_inv_mass
        let impulse_vec := normal.smul impulse_scalar
        Except.ok
          ({ a1 with velocity := a1.velocity.sub (impulse_vec.smul a1.inv_mass) },
           { b1 with velocity := b1.velocity.add (impulse_vec.smul b1.inv_mass) })
    else Except.ok (a1, b1)
  else Except.ok (a, b)

/-! ## Concrete bodies used by witnesses and counterexamples -/

/-- A unit-mass test body used by witnesses. -/
def wBall : Ball :=
  { position := ⟨3, 4⟩, velocity := ⟨5, -6⟩, acceleration := ⟨0, 7⟩
    radius := 2, mass := 1, inv_mass := 1 }

/-! ## C4 -/

/-- C4: `update(dt)` raises an invalid-argument error for `dt < 0`
(before any mutation, so the body is unchanged), and for `dt ≥ 0`
performs the semi-implicit Euler step: `velocity += acceleration * dt`
then `position += (updated velocity) * dt`, with `acceleration`,
`radius` and `mass` untouched (the result record differs from `b` only
in `velocity` and `position`). -/
theorem update_contract (b : Ball) (dt : ℚ) :
    (dt < 0 → b.update dt = Except.error "dt cannot be negative") ∧
    (0 ≤ dt → b.update dt = Except.ok
      { b with
        velocity := b.velocity.add (b.acceleration.smul dt)
        position := b.position.add
          ((b.velocity.add (b.acceleration.smul dt)).smul dt) }) := by
  constructor
  · intro h
    simp [Ball.update, h]
  · intro h
    simp [Ball.update, not_lt.mpr h]

/-- Witness for C4 at `dt = -1` (error) and `dt = 2` (Euler step). -/
theorem update_contract_witness :
    wBall.update (-1) = Except.error "dt cannot be negative" ∧
    wBall.update 2 = Except.ok
      { wBall with
        velocity := wBall.velocity.add (wBall.acceleration.smul 2)
        position := wBall.position.add
          ((wBall.velocity.add (wBall.acceleration.smul 2)).smul 2) } :=
  ⟨(update_contract wBall (-1)).1 (by norm_num),
   (update_contract wBall 2).2 (by norm_num)⟩

/-! ## C8 -/

/-- C8 counterexample: the claim says construction with `mass == 0`
succeeds, but `Ball.__init__` in `src/ballcollisiongemini.py` checks
`mass <= 0` and rejects a zero mass. -/
theorem mkGemini_rejects_zero_mass :
    Ball.mkGemini 100 100 10 0 0 0 0 0
      = Except.error "mass must be a positive number" := by
  rfl

/-- C8 amended: for numeric inputs, construction in
`src/ballcollisiongeminiwithui.py` succeeds exactly when `radius > 0`
and `mass >= 0`, and `mass == 0` yields `inv_mass == 0` (an immovable
body); construction in `src/ballcollisiongemini.py` succeeds exactly
when `radius > 0` and `mass > 0`, so a zero mass is rejected there. -/
theorem construction_errors (x y radius mass vx vy ax ay : ℚ) :
    ((∃ b, Ball.mkGemini x y radius mass vx vy ax ay = Except.ok b) ↔
      0 < radius ∧ 0 < mass) ∧
    ((∃ b, Ball.mkUI x y radius mass vx vy ax ay = Except.ok b) ↔
      0 < radius ∧ 0 ≤ mass) ∧
    (0 < radius → ∃ b, Ball.mkUI x y radius 0 vx vy ax ay = Except.ok b ∧
      b.inv_mass = 0 ∧ b.mass = 0) := by
  refine ⟨?_, ?_, ?_⟩
  · unfold Ball.mkGemini
    split_ifs with h1 h2 h3
    · simp only [reduceCtorEq, exists_false, false_iff, not_and]
      intro hr
      linarith
    · simp only [reduceCtorEq, exists_false, false_iff, not_and]
      intro _
      linarith
    · simp only [Except.ok.injEq, exists_eq', true_iff]
      exact ⟨by linarith, by linarith⟩
    · exact absurd (not_le.mp h2) h3
  · unfold Ball.mkUI
    split_ifs with h1 h2 h3
    · simp only [reduceCtorEq, exists_false, false_iff, not_and]
      intro hr
      linarith
    · simp only [reduceCtorEq, exists_false, false_iff, not_and]
      intro _
      linarith
    · simp only [Except.ok.injEq, exists_eq', true_iff]
      exact ⟨by linarith, by linarith⟩
    · simp only [Except.ok.injEq, exists_eq', true_iff]
      exact ⟨by linarith, by linarith⟩
  · intro hr
    unfold Ball.mkUI
    rw [if_neg (not_le.mpr hr), if_neg (by norm_num : ¬(0 : ℚ) < 0)]
    exact ⟨_, rfl, by norm_num, rfl⟩

/-- Witness for C8: a zero-mass body is constructible in the UI variant
and is immovable. -/
theorem construction_errors_witness :
    ∃ b, Ball.mkUI 1 2 3 0 5 6 7 8 = Except.ok b ∧
      b.inv_mass = 0 ∧ b.mass = 0 :=
  (construction_errors 1 2 3 0 5 6 7 8).2.2 (by norm_num)

/-! ## C3 -/

@[simp] theorem Vec2.smul_zero_right (v : Vec2) : v.smul 0 = Vec2.zero := by
  simp [Vec2.smul, Vec2.zero]

@[simp] theorem Vec2.sub_zero_right (v : Vec2) : v.sub Vec2.zero = v := by
  simp [Vec2.sub, Vec2.zero]

@[simp] theorem Vec2.add_zero_right (v : Vec2) : v.add Vec2.zero = v := by
  simp [Vec2.add, Vec2.zero]

@[simp] theorem Vec2.zero_smul_left (c : ℚ) : Vec2.zero.smul c = Vec2.zero := by
  simp [Vec2.smul, Vec2.zero]

@[simp] theorem Vec2.zero_add_left (v : Vec2) : Vec2.zero.add v = v := by
  simp [Vec2.add, Vec2.zero]

/-- A zero-mass (immovable) body carrying a nonzero velocity; only the
UI variant can construct such a body, but the physics routines accept
it in both files. -/
def movingImmovable : Ball :=
  { position := ⟨0, 0⟩, velocity := ⟨1, 0⟩, acceleration := ⟨0, 0⟩
    radius := 1, mass := 0, inv_mass := 0 }

/-- A zero-mass body at rest, placed beyond the left wall. -/
def outOfBoundsImmovable : Ball :=
  { position := ⟨-10, 300⟩, velocity := ⟨0, 0⟩, acceleration := ⟨0, 0⟩
    radius := 5, mass := 0, inv_mass := 0 }

/-- A zero-mass body at rest, inside the 800×600 world. -/
def restingImmovable : Ball :=
  { position := ⟨100, 100⟩, velocity := ⟨0, 0⟩, acceleration := ⟨0, 0⟩
    radius := 5, mass := 0, inv_mass := 0 }

/-- C3 counterexample: integration and boundary resolution do not
consult `inv_mass` at all.  A zero-mass body with velocity `(1, 0)` is
moved by `update(1)`, and a zero-mass body resting beyond the left wall
has its position clamped by the wall-collision block. -/
theorem immovable_claim_counterexample :
    (movingImmovable.update 1).toOption.map Ball.position = some ⟨1, 0⟩ ∧
    (⟨1, 0⟩ : Vec2) ≠ movingImmovable.position ∧
    (resolveBoundsGemini 800 600 (17/20) outOfBoundsImmovable).position = ⟨5, 300⟩ ∧
    (⟨5, 300⟩ : Vec2) ≠ outOfBoundsImmovable.position := by
  refine ⟨?_, ?_, ?_, ?_⟩
  · norm_num [Ball.update, movingImmovable, Vec2.add, Vec2.smul, Except.toOption]
  · norm_num [movingImmovable]
  · norm_num [resolveBoundsGemini, outOfBoundsImmovable]
  · norm_num [outOfBoundsImmovable]

/-- C3 amended: a body with `inv_mass = 0` is completely unchanged by
`apply_force` and by pairwise collision resolution (separation and
impulse both scale by its inverse mass); `update` and the boundary
resolver ignore mass, so such a body is only guaranteed unchanged by
them when its velocity and acceleration are zero and it lies within the
bounds — under those conditions every step of the pipeline leaves it
unchanged. -/
theorem immovable_amended :
    (∀ (b : Ball) (f : Vec2), b.inv_mass = 0 → b.apply_force f = b) ∧
    (∀ (e : ℚ) (a b : Ball) (d : ℚ), a.inv_mass = 0 →
      (resolvePairGemini e a b d).1 = a) ∧
    (∀ (e : ℚ) (a b : Ball) (d : ℚ), b.inv_mass = 0 →
      (resolvePairGemini e a b d).2 = b) ∧
    (∀ (b : Ball) (dt : ℚ), 0 ≤ dt → b.velocity = Vec2.zero →
      b.acceleration = Vec2.zero → b.update dt = Except.ok b) ∧
    (∀ (W H e : ℚ) (b : Ball),
      0 ≤ b.position.x - b.radius → b.position.x + b.radius ≤ W →
      0 ≤ b.position.y - b.radius → b.position.y + b.radius ≤ H →
      resolveBoundsGemini W H e b = b) := by
  refine ⟨?_, ?_, ?_, ?_, ?_⟩
  · intro b f h
    simp [Ball.apply_force, h]
  · intro e a b d h
    obtain ⟨p, v, acc, r, m, im⟩ := a
    dsimp only at h
    subst h
    unfold resolvePairGemini
    dsimp only
    split_ifs with h1 h2 h3 <;> simp
  · intro e a b d h
    obtain ⟨p, v, acc, r, m, im⟩ := b
    dsimp only at h
    subst h
    unfold resolvePairGemini
    dsimp only
    split_ifs with h1 h2 h3 <;> simp
  · intro b dt hdt hv ha
    obtain ⟨p, v, acc, r, m, im⟩ := b
    dsimp only at hv ha
    subst hv
    subst ha
    simp [Ball.update, not_lt.mpr hdt]
  · intro W H e b hx1 hx2 hy1 hy2
    have g1 : ¬(b.position.x - b.radius < 0) := by linarith
    have g2 : ¬(W < b.position.x + b.radius) := by linarith
    have g3 : ¬(b.position.y - b.radius < 0) := by linarith
    have g4 : ¬(H < b.position.y + b.radius) := by linarith
    simp only [resolveBoundsGemini, if_neg g1, if_neg g2, if_neg g3, if_neg g4]

/-- Witness for C3 amended, at concrete zero-mass bodies. -/
theorem immovable_amended_witness :
    restingImmovable.apply_force ⟨3, 4⟩ = restingImmovable ∧
    (resolvePairGemini 1 restingImmovable wBall 1).1 = restingImmovable ∧
    (resolvePairGemini 1 wBall restingImmovable 1).2 = restingImmovable ∧
    restingImmovable.update 2 = Except.ok restingImmovable ∧
    resolveBoundsGemini 800 600 (17/20) restingImmovable = restingImmovable :=
  ⟨immovable_amended.1 restingImmovable ⟨3, 4⟩ rfl,
   immovable_amended.2.1 1 restingImmovable wBall 1 rfl,
   immovable_amended.2.2.1 1 wBall restingImmovable 1 rfl,
   immovable_amended.2.2.2.1 restingImmovable 2 (by norm_num) rfl rfl,
   immovable_amended.2.2.2.2 800 600 (17/20) restingImmovable
     (by norm_num [restingImmovable]) (by norm_num [restingImmovable])
     (by norm_num [restingImmovable]) (by norm_num [restingImmovable])⟩

/-! ## C7 -/

/-- C7: when the relative velocity along the contact normal computed at
detection time is non-negative (pair already separating), the pairwise
resolver of `src/ballcollisiongemini.py` leaves both velocities
unchanged (positions may still change through the separation step). -/
theorem no_resolution_on_separating (e : ℚ) (a b : Ball) (dist : ℚ)
    (h : 0 ≤ (b.velocity.sub a.velocity).dot
      ((b.position.sub a.position).smul (1 / dist))) :
    (resolvePairGemini e a b dist).1.velocity = a.velocity ∧
    (resolvePairGemini e a b dist).2.velocity = b.velocity := by
  unfold resolvePairGemini
  dsimp only
  split_ifs with h1 h2 h3
  · exact ⟨rfl, rfl⟩
  · exact absurd h3 (not_lt.mpr h)
  · exact ⟨rfl, rfl⟩
  · exact ⟨rfl, rfl⟩

/-- Body A of the C7 witness: at rest at the origin. -/
def sepA : Ball :=
  { position := ⟨0, 0⟩, velocity := ⟨0, 0⟩, acceleration := ⟨0, 0⟩
    radius := 1, mass := 1, inv_mass := 1 }

/-- Body B of the C7 witness: overlapping A but moving away. -/
def sepB : Ball :=
  { position := ⟨3/2, 0⟩, velocity := ⟨1, 0⟩, acceleration := ⟨0, 0⟩
    radius := 1, mass := 1, inv_mass := 1 }

/-- Witness for C7: an overlapping but separating pair keeps its
velocities. -/
theorem no_resolution_on_separating_witness :
    (resolvePairGemini 1 sepA sepB (3/2)).1.velocity = sepA.velocity ∧
    (resolvePairGemini 1 sepA sepB (3/2)).2.velocity = sepB.velocity :=
  no_resolution_on_separating 1 sepA sepB (3/2)
    (by norm_num [sepA, sepB, Vec2.sub, Vec2.dot, Vec2.smul])

/-! ## C10 -/

/-- C10: for a pair of finite positive masses (with the cached inverse
masses consistent), the pairwise resolver of
`src/ballcollisiongemini.py` preserves the mass-weighted centroid
`massA * posA + massB * posB`: the two opposite separation
displacements are in inverse-mass proportion, so they cancel in the
mass-weighted sum (and the impulse step never touches positions). -/
theorem separation_preserves_centroid (e : ℚ) (a b : Ball) (dist : ℚ)
    (ha : 0 < a.mass) (hb : 0 < b.mass)
    (hia : a.inv_mass = 1 / a.mass) (hib : b.inv_mass = 1 / b.mass) :
    ((resolvePairGemini e a b dist).1.position.smul a.mass).add
      ((resolvePairGemini e a b dist).2.position.smul b.mass)
      = (a.position.smul a.mass).add (b.position.smul b.mass) := by
  obtain ⟨pa, va, aa, ra, ma, ia⟩ := a
  obtain ⟨pb, vb, ab, rb, mb, ib⟩ := b
  dsimp only at ha hb hia hib ⊢
  have hA : ia * ma = 1 := by
    rw [hia]
    field_simp
  have hB : ib * mb = 1 := by
    rw [hib]
    field_simp
  unfold resolvePairGemini
  dsimp only
  split_ifs with h1 h2 h3
  · rfl
  · apply Vec2.ext2 <;>
      simp only [Vec2.add, Vec2.sub, Vec2.smul, Vec2.dot, Vec2.lengthSq]
    · linear_combination
        (((pb.x - pa.x) * (1 / dist)) * ((ra + rb - dist) / (ia + ib))) * hB -
        (((pb.x - pa.x) * (1 / dist)) * ((ra + rb - dist) / (ia + ib))) * hA
    · linear_combination
        (((pb.y - pa.y) * (1 / dist)) * ((ra + rb - dist) / (ia + ib))) * hB -
        (((pb.y - pa.y) * (1 / dist)) * ((ra + rb - dist) / (ia + ib))) * hA
  · apply Vec2.ext2 <;>
      simp only [Vec2.add, Vec2.sub, Vec2.smul, Vec2.dot, Vec2.lengthSq]
    · linear_combination
        (((pb.x - pa.x) * (1 / dist)) * ((ra + rb - dist) / (ia + ib))) * hB -
        (((pb.x - pa.x) * (1 / dist)) * ((ra + rb - dist) / (ia + ib))) * hA
    · linear_combination
        (((pb.y - pa.y) * (1 / dist)) * ((ra + rb - dist) / (ia + ib))) * hB -
        (((pb.y - pa.y) * (1 / dist)) * ((ra + rb - dist) / (ia + ib))) * hA
  · rfl

/-- Witness for C10: the equal-mass overlapping pair splits the
correction evenly and the centroid is unchanged. -/
theorem separation_preserves_centroid_witness :
    ((resolvePairGemini 1 sepA sepB (3/2)).1.position.smul sepA.mass).add
      ((resolvePairGemini 1 sepA sepB (3/2)).2.position.smul sepB.mass)
      = (sepA.position.smul sepA.mass).add (sepB.position.smul sepB.mass) :=
  separation_preserves_centroid 1 sepA sepB (3/2)
    (by norm_num [sepA]) (by norm_num [sepB])
    (by norm_num [sepA]) (by norm_num [sepB])

/-! ## C1 -/

/-- C1: with `restitution = 1.0` and two finite-mass bodies (cached
inverse masses consistent), the impulse-based resolution of
`src/ballcollisiongemini.py` preserves total momentum
`m1*v1 + m2*v2`: the impulse is applied equal-and-opposite, scaled by
each body's inverse mass. -/
theorem momentum_conserved (a b : Ball) (dist : ℚ)
    (ha : 0 < a.mass) (hb : 0 < b.mass)
    (hia : a.inv_mass = 1 / a.mass) (hib : b.inv_mass = 1 / b.mass) :
    ((resolvePairGemini 1 a b dist).1.velocity.smul a.mass).add
      ((resolvePairGemini 1 a b dist).2.velocity.smul b.mass)
      = (a.velocity.smul a.mass).add (b.velocity.smul b.mass) := by
  obtain ⟨pa, va, aa, ra, ma, ia⟩ := a
  obtain ⟨pb, vb, ab, rb, mb, ib⟩ := b
  dsimp only at ha hb hia hib ⊢
  have hA : ia * ma = 1 := by
    rw [hia]
    field_simp
  have hB : ib * mb = 1 := by
    rw [hib]
    field_simp
  unfold resolvePairGemini
  dsimp only
  split_ifs with h1 h2 h3
  · rfl
  · apply Vec2.ext2 <;>
      simp only [Vec2.add, Vec2.sub, Vec2.smul, Vec2.dot, Vec2.lengthSq]
    · linear_combination
        (((pb.x - pa.x) * (1 / dist)) *
          (-(1 + 1) * ((vb.x - va.x) * ((pb.x - pa.x) * (1 / dist)) +
            (vb.y - va.y) * ((pb.y - pa.y) * (1 / dist))) / (ia + ib))) * hB -
        (((pb.x - pa.x) * (1 / dist)) *
          (-(1 + 1) * ((vb.x - va.x) * ((pb.x - pa.x) * (1 / dist)) +
            (vb.y - va.y) * ((pb.y - pa.y) * (1 / dist))) / (ia + ib))) * hA
    · linear_combination
        (((pb.y - pa.y) * (1 / dist)) *
          (-(1 + 1) * ((vb.x - va.x) * ((pb.x - pa.x) * (1 / dist)) +
            (vb.y - va.y) * ((pb.y - pa.y) * (1 / dist))) / (ia + ib))) * hB -
        (((pb.y - pa.y) * (1 / dist)) *
          (-(1 + 1) * ((vb.x - va.x) * ((pb.x - pa.x) * (1 / dist)) +
            (vb.y - va.y) * ((pb.y - pa.y) * (1 / dist))) / (ia + ib))) * hA
  · rfl
  · rfl

/-- Body A of the C1/C2 witnesses: moving right at speed 10. -/
def headA : Ball :=
  { position := ⟨0, 0⟩, velocity := ⟨10, 0⟩, acceleration := ⟨0, 0⟩
    radius := 1, mass := 1, inv_mass := 1 }

/-- Body B of the C1/C2 witnesses: overlapping A and moving left at
speed 10 (head-on closing pair). -/
def headB : Ball :=
  { position := ⟨3/2, 0⟩, velocity := ⟨-10, 0⟩, acceleration := ⟨0, 0⟩
    radius := 1, mass := 1, inv_mass := 1 }

/-- Witness for C1: a head-on equal-mass elastic collision exchanges
the velocities and keeps total momentum. -/
theorem momentum_conserved_witness :
    ((resolvePairGemini 1 headA headB (3/2)).1.velocity.smul headA.mass).add
      ((resolvePairGemini 1 headA headB (3/2)).2.velocity.smul headB.mass)
      = (headA.velocity.smul headA.mass).add (headB.velocity.smul headB.mass) :=
  momentum_conserved headA headB (3/2)
    (by norm_num [headA]) (by norm_num [headB])
    (by norm_num [headA]) (by norm_num [headB])

/-! ## C2 -/

/-- C2: for a detected pair actually resolved (closing, with movable
mass present) and restitution `e ∈ [0, 1]`, the magnitude of the
post-resolution relative velocity along the contact normal is at most
`e` times its pre-resolution magnitude.  (The proof shows the exact
identity: the post value is `-e` times the pre value.)  `dist` carries
its defining square-root properties `0 < dist` and
`dist * dist = dist_sq`. -/
theorem energy_bound (e : ℚ) (a b : Ball) (dist : ℚ)
    (he0 : 0 ≤ e) (he1 : e ≤ 1)
    (hdet : (b.position.sub a.position).lengthSq
        < (a.radius + b.radius) * (a.radius + b.radius)
      ∧ 1 / 1000000 < (b.position.sub a.position).lengthSq)
    (htim : 0 < a.inv_mass + b.inv_mass)
    (hdist : 0 < dist)
    (hsq : dist * dist = (b.position.sub a.position).lengthSq)
    (hvan : (b.velocity.sub a.velocity).dot
      ((b.position.sub a.position).smul (1 / dist)) < 0) :
    |((resolvePairGemini e a b dist).2.velocity.sub
        (resolvePairGemini e a b dist).1.velocity).dot
      ((b.position.sub a.position).smul (1 / dist))|
      ≤ e * |(b.velocity.sub a.velocity).dot
        ((b.position.sub a.position).smul (1 / dist))| := by
  have h : ((resolvePairGemini e a b dist).2.velocity.sub
        (resolvePairGemini e a b dist).1.velocity).dot
      ((b.position.sub a.position).smul (1 / dist))
      = -(e * ((b.velocity.sub a.velocity).dot
        ((b.position.sub a.position).smul (1 / dist)))) := by
    have htne : a.inv_mass + b.inv_mass ≠ 0 := ne_of_gt htim
    have hdne : dist ≠ 0 := ne_of_gt hdist
    obtain ⟨pa, va, aa, ra, ma, ia⟩ := a
    obtain ⟨pb, vb, ab, rb, mb, ib⟩ := b
    dsimp only at hdet htne hvan hsq ⊢
    have hca : (ia + ib)⁻¹ * (ia + ib) = 1 := inv_mul_cancel₀ htne
    have hdd : dist⁻¹ * dist = 1 := inv_mul_cancel₀ hdne
    unfold resolvePairGemini
    dsimp only
    split_ifs
    simp only [Vec2.add, Vec2.sub, Vec2.smul, Vec2.dot, Vec2.lengthSq]
      at hsq hvan ⊢
    linear_combination
      (-(1 + e) * ((vb.x - va.x) * ((pb.x - pa.x) * (1 / dist)) +
          (vb.y - va.y) * ((pb.y - pa.y) * (1 / dist))) * (1 / dist) ^ 2 *
        ((pb.x - pa.x) * (pb.x - pa.x) + (pb.y - pa.y) * (pb.y - pa.y))) * hca +
      ((1 + e) * ((vb.x - va.x) * ((pb.x - pa.x) * (1 / dist)) +
          (vb.y - va.y) * ((pb.y - pa.y) * (1 / dist))) * (1 / dist) ^ 2) * hsq +
      (-(1 + e) * ((vb.x - va.x) * ((pb.x - pa.x) * (1 / dist)) +
          (vb.y - va.y) * ((pb.y - pa.y) * (1 / dist))) *
        ((1 / dist) * dist + 1)) * hdd
  rw [h, abs_neg, abs_mul, abs_of_nonneg he0]

/-- Witness for C2 at restitution `1/2` on the head-on pair: the
post-collision relative normal speed is bounded by half the
pre-collision one. -/
theorem energy_bound_witness :
    |((resolvePairGemini (1/2) headA headB (3/2)).2.velocity.sub
        (resolvePairGemini (1/2) headA headB (3/2)).1.velocity).dot
      ((headB.position.sub headA.position).smul (1 / (3/2)))|
      ≤ (1/2) * |(headB.velocity.sub headA.velocity).dot
        ((headB.position.sub headA.position).smul (1 / (3/2)))| :=
  energy_bound (1/2) headA headB (3/2) (by norm_num) (by norm_num)
    (by norm_num [headA, headB, Vec2.sub, Vec2.lengthSq])
    (by norm_num [headA, headB])
    (by norm_num)
    (by norm_num [headA, headB, Vec2.sub, Vec2.lengthSq])
    (by norm_num [headA, headB, Vec2.sub, Vec2.dot, Vec2.smul])

/-! ## C5 -/

/-- A body clamped against the left wall whose velocity points inward
(to the right). -/
def inwardClamped : Ball :=
  { position := ⟨2, 300⟩, velocity := ⟨7, 0⟩, acceleration := ⟨0, 0⟩
    radius := 5, mass := 1, inv_mass := 1 }

/-- C5 counterexample: in `src/ballcollisiongemini.py` the left-wall
clamp multiplies `velocity.x` by `-RESTITUTION` unconditionally — a
body already moving inward (`velocity.x > 0`) does NOT keep its
velocity component, contradicting the claim's directional check. -/
theorem wall_reflection_counterexample :
    inwardClamped.position.x - inwardClamped.radius < 0 ∧
    0 < inwardClamped.velocity.x ∧
    (resolveBoundsGemini 800 600 (17/20) inwardClamped).velocity.x
      ≠ inwardClamped.velocity.x := by
  refine ⟨by norm_num [inwardClamped], by norm_num [inwardClamped], ?_⟩
  norm_num [resolveBoundsGemini, inwardClamped]

/-- C5 amended: in `src/ballcollisiongemini.py` every wall clamp
multiplies the axis velocity by `-RESTITUTION` unconditionally,
whatever its direction; in `src/ballcollisiongeminiwithui.py` the
left, right and top walls do the same, and only the bottom wall checks
the direction: it reflects the vertical velocity exactly when it still
points downward (`velocity.y > 0`) and keeps it unchanged otherwise. -/
theorem wall_reflection_amended :
    (∀ (W H e : ℚ) (b : Ball), b.position.x - b.radius < 0 →
      (resolveBoundsGemini W H e b).velocity.x = b.velocity.x * (-e)) ∧
    (∀ (W H e : ℚ) (b : Ball), ¬(b.position.x - b.radius < 0) →
      W < b.position.x + b.radius →
      (resolveBoundsGemini W H e b).velocity.x = b.velocity.x * (-e)) ∧
    (∀ (W H e : ℚ) (b : Ball), b.position.y - b.radius < 0 →
      (resolveBoundsGemini W H e b).velocity.y = b.velocity.y * (-e)) ∧
    (∀ (W H e : ℚ) (b : Ball), ¬(b.position.y - b.radius < 0) →
      H < b.position.y + b.radius →
      (resolveBoundsGemini W H e b).velocity.y = b.velocity.y * (-e)) ∧
    (∀ (W H e : ℚ) (b : Ball), b.position.x - b.radius < 0 →
      (resolveBoundsUI W H e b).velocity.x = b.velocity.x * (-e)) ∧
    (∀ (W H e : ℚ) (b : Ball), ¬(b.position.x - b.radius < 0) →
      W < b.position.x + b.radius →
      (resolveBoundsUI W H e b).velocity.x = b.velocity.x * (-e)) ∧
    (∀ (W H e : ℚ) (b : Ball), b.position.y - b.radius < 0 →
      (resolveBoundsUI W H e b).velocity.y = b.velocity.y * (-e)) ∧
    (∀ (W H e : ℚ) (b : Ball), ¬(b.position.y - b.radius < 0) →
      H < b.position.y + b.radius →
      (resolveBoundsUI W H e b).velocity.y =
        (if 0 < b.velocity.y then b.velocity.y * (-e) else b.velocity.y)) := by
  refine ⟨?_, ?_, ?_, ?_, ?_, ?_, ?_, ?_⟩ <;>
    intro W H e b <;> intro h1 <;> try intro h2
  all_goals simp only [resolveBoundsGemini, resolveBoundsUI]
  all_goals split_ifs
  all_goals try dsimp only at *

/-- A body overlapping the bottom wall while moving upward. -/
def upwardAtFloor : Ball :=
  { position := ⟨400, 590⟩, velocity := ⟨0, -3⟩, acceleration := ⟨0, 0⟩
    radius := 25, mass := 1, inv_mass := 1 }

/-- Witness for C5 amended: the inward-moving clamped body is reflected
by the gemini resolver, and a body clamped on the UI bottom wall with
upward velocity keeps it. -/
theorem wall_reflection_amended_witness :
    (resolveBoundsGemini 800 600 (17/20) inwardClamped).velocity.x
      = inwardClamped.velocity.x * (-(17/20)) ∧
    (resolveBoundsUI 800 600 1 upwardAtFloor).velocity.y
      = (if 0 < upwardAtFloor.velocity.y
          then upwardAtFloor.velocity.y * (-1) else upwardAtFloor.velocity.y) :=
  ⟨wall_reflection_amended.1 800 600 (17/20) inwardClamped
      (by norm_num [inwardClamped]),
   wall_reflection_amended.2.2.2.2.2.2.2 800 600 1 upwardAtFloor
      (by norm_num [upwardAtFloor]) (by norm_num [upwardAtFloor])⟩

/-! ## C6 -/

/-- A body whose diameter exceeds the world width, thrown far right. -/
def hugeBall : Ball :=
  { position := ⟨2000, 300⟩, velocity := ⟨0, 0⟩, acceleration := ⟨0, 0⟩
    radius := 500, mass := 1, inv_mass := 1 }

/-- C6 counterexample: because the two x-wall checks are an `if/elif`
chain, clamping a body of radius 500 to the right wall of the 800-wide
world leaves `position.x - radius = -200 < 0`: the left containment
fails after `resolveBounds`. -/
theorem boundary_containment_counterexample :
    (resolveBoundsGemini 800 600 (17/20) hugeBall).position.x
      - (resolveBoundsGemini 800 600 (17/20) hugeBall).radius < 0 := by
  norm_num [resolveBoundsGemini, hugeBall]

/-- C6 amended: whenever the body's diameter fits the world on both
axes (`2 * radius ≤ W` and `2 * radius ≤ H`), the wall-collision block
of `src/ballcollisiongemini.py` establishes containment on all four
edges, for any input position and velocity. -/
theorem boundary_containment (W H e : ℚ) (b : Ball)
    (hrW : 2 * b.radius ≤ W) (hrH : 2 * b.radius ≤ H) :
    0 ≤ (resolveBoundsGemini W H e b).position.x - b.radius ∧
    (resolveBoundsGemini W H e b).position.x + b.radius ≤ W ∧
    0 ≤ (resolveBoundsGemini W H e b).position.y - b.radius ∧
    (resolveBoundsGemini W H e b).position.y + b.radius ≤ H := by
  unfold resolveBoundsGemini
  dsimp only
  split_ifs <;> refine ⟨?_, ?_, ?_, ?_⟩ <;> dsimp only at * <;> linarith

/-- Witness for C6 amended at a body that fits the world. -/
theorem boundary_containment_witness :
    0 ≤ (resolveBoundsGemini 800 600 (17/20) wBall).position.x - wBall.radius ∧
    (resolveBoundsGemini 800 600 (17/20) wBall).position.x + wBall.radius ≤ 800 ∧
    0 ≤ (resolveBoundsGemini 800 600 (17/20) wBall).position.y - wBall.radius ∧
    (resolveBoundsGemini 800 600 (17/20) wBall).position.y + wBall.radius ≤ 600 :=
  boundary_containment 800 600 (17/20) wBall
    (by norm_num [wBall]) (by norm_num [wBall])

/-! ## C9 -/

/-- An immovable body at the origin moving right. -/
def pinnedA : Ball :=
  { position := ⟨0, 0⟩, velocity := ⟨1, 0⟩, acceleration := ⟨0, 0⟩
    radius := 25, mass := 0, inv_mass := 0 }

/-- An immovable body overlapping `pinnedA` and moving left (the pair
is closing). -/
def pinnedB : Ball :=
  { position := ⟨30, 0⟩, velocity := ⟨-1, 0⟩, acceleration := ⟨0, 0⟩
    radius := 25, mass := 0, inv_mass := 0 }

/-- An immovable body at the origin moving left (away from B). -/
def pinnedA' : Ball :=
  { position := ⟨0, 0⟩, velocity := ⟨-1, 0⟩, acceleration := ⟨0, 0⟩
    radius := 25, mass := 0, inv_mass := 0 }

/-- An immovable body overlapping A and moving right (separating). -/
def pinnedB' : Ball :=
  { position := ⟨30, 0⟩, velocity := ⟨1, 0⟩, acceleration := ⟨0, 0⟩
    radius := 25, mass := 0, inv_mass := 0 }

/-- C9 counterexample: the claim says velocity resolution completes as
a no-op without error for an immovable pair, but in
`src/ballcollisiongeminiwithui.py` the unguarded
`impulse_scalar /= total_inv_mass` divides by zero for a closing
immovable pair and raises. -/
theorem immovable_pair_counterexample :
    resolvePairUI 1 pinnedA pinnedB 30
      = Except.error "float division by zero" := by
  norm_num [resolvePairUI, pinnedA, pinnedB, Vec2.sub, Vec2.dot,
    Vec2.smul, Vec2.lengthSq]

/-- C9 amended: a detected colliding pair with
`invMassA + invMassB == 0` is skipped entirely (`continue`) by the
pairwise resolver of `src/ballcollisiongemini.py`, leaving both bodies
unchanged without error; in `src/ballcollisiongeminiwithui.py`
separation is skipped and the pair is left unchanged without error only
when it is not closing, while a closing immovable pair raises a
division-by-zero error in the impulse computation. -/
theorem immovable_pair_amended :
    (∀ (e : ℚ) (a b : Ball) (d : ℚ), a.inv_mass + b.inv_mass = 0 →
      resolvePairGemini e a b d = (a, b)) ∧
    (∀ (e : ℚ) (a b : Ball) (d : ℚ), a.inv_mass + b.inv_mass = 0 →
      0 ≤ (b.velocity.sub a.velocity).dot
        ((b.position.sub a.position).smul (1 / d)) →
      resolvePairUI e a b d = Except.ok (a, b)) ∧
    (∀ (e : ℚ) (a b : Ball) (d : ℚ), a.inv_mass + b.inv_mass = 0 →
      0 < (b.position.sub a.position).lengthSq →
      (b.position.sub a.position).lengthSq
        < (a.radius + b.radius) * (a.radius + b.radius) →
      (b.velocity.sub a.velocity).dot
        ((b.position.sub a.position).smul (1 / d)) < 0 →
      resolvePairUI e a b d = Except.error "float division by zero") := by
  refine ⟨?_, ?_, ?_⟩
  · intro e a b d h
    unfold resolvePairGemini
    dsimp only
    split_ifs <;> rfl
  · intro e a b d h hvan
    have ht : ¬(0 : ℚ) < a.inv_mass + b.inv_mass := by
      rw [h]
      exact lt_irrefl 0
    have hvan' : ¬((b.velocity.sub a.velocity).dot
        ((b.position.sub a.position).smul (1 / d)) < 0) := not_lt.mpr hvan
    unfold resolvePairUI
    dsimp only
    simp only [if_neg ht, if_neg hvan']
    split_ifs <;> rfl
  · intro e a b d h h0 hlt hvan
    have ht : ¬(0 : ℚ) < a.inv_mass + b.inv_mass := by
      rw [h]
      exact lt_irrefl 0
    have hdet : 0 < (b.position.sub a.position).lengthSq ∧
        (b.position.sub a.position).lengthSq
          < (a.radius + b.radius) * (a.radius + b.radius) := ⟨h0, hlt⟩
    unfold resolvePairUI
    dsimp only
    simp only [if_neg ht, if_pos hdet, if_pos hvan, if_pos h]

/-- Witness for C9 amended: the closing immovable pair is skipped
unchanged by the gemini resolver, the separating immovable pair is left
unchanged by the UI resolver, and the closing immovable pair makes the
UI resolver raise. -/
theorem immovable_pair_amended_witness :
    resolvePairGemini 1 pinnedA pinnedB 30 = (pinnedA, pinnedB) ∧
    resolvePairUI 1 pinnedA' pinnedB' 30 = Except.ok (pinnedA', pinnedB') ∧
    resolvePairUI 1 pinnedA pinnedB 30
      = Except.error "float division by zero" :=
  ⟨immovable_pair_amended.1 1 pinnedA pinnedB 30 (by norm_num [pinnedA, pinnedB]),
   immovable_pair_amended.2.1 1 pinnedA' pinnedB' 30
     (by norm_num [pinnedA', pinnedB'])
     (by norm_num [pinnedA', pinnedB', Vec2.sub, Vec2.dot, Vec2.smul]),
   immovable_pair_amended.2.2 1 pinnedA pinnedB 30
     (by norm_num [pinnedA, pinnedB])
     (by norm_num [pinnedA, pinnedB, Vec2.sub, Vec2.lengthSq])
     (by norm_num [pinnedA, pinnedB, Vec2.sub, Vec2.lengthSq])
     (by norm_num [pinnedA, pinnedB, Vec2.sub, Vec2.dot, Vec2.smul])⟩
